import Mathlib

/-
Verification of the connection-resilience and delivery layer of the
webchatcomllm repository: a shallow embedding of the circuit breaker
(utils/circuit_breaker.go), the retry executor (utils/retry.go), the
browser-side ConnectionManager (static/js/connection-manager.js), the
server-side managed connection (ManagedConnection, package utils) and the
WebSocket protocol handler (Client.handleMessage, package handlers).

Conventions of the embedding:
- machine time (time.Time / Date.now()) is a Nat passed explicitly to the
  operations that read the clock;
- durations are Nat in the source unit (milliseconds for the JS manager,
  an abstract unit for the Go code);
- channel sends, WebSocket writes and select cases whose outcome depends
  on the scheduler or the peer are parametrised by explicit oracles
  (a Bool, or a Nat → Bool indexed by the attempt number);
- Go errors are an inductive type; a Go panic is an Except.error.
-/

/-! ## Circuit breaker — utils/circuit_breaker.go -/

/-- States of the circuit breaker (`CircuitState` in circuit_breaker.go). -/
inductive CircuitState where
  | CircuitClosed : CircuitState
  | CircuitOpen : CircuitState
  | CircuitHalfOpen : CircuitState
deriving DecidableEq, Repr

/-- The `CircuitBreaker` struct.  The mutex only guards concurrent access and
has no sequential behaviour, so it is not modelled. -/
structure CircuitBreaker where
  state : CircuitState
  failureCount : Nat
  successCount : Nat
  threshold : Nat
  timeout : Nat
  nextAttempt : Nat
deriving DecidableEq, Repr

/-- `NewCircuitBreaker(threshold, timeout)`: zero values for the counters and
for `nextAttempt` (Go zero time). -/
def NewCircuitBreaker (threshold timeout : Nat) : CircuitBreaker :=
  { state := CircuitState.CircuitClosed
    failureCount := 0
    successCount := 0
    threshold := threshold
    timeout := timeout
    nextAttempt := 0 }

/-- `(*CircuitBreaker).Allow()`.  `now` is `time.Now()`;
`time.Now().After(cb.nextAttempt)` is the strict comparison
`cb.nextAttempt < now`.  The Go `default` branch is unreachable for the
three-valued enum and is dropped. -/
def CircuitBreaker.Allow (cb : CircuitBreaker) (now : Nat) : Bool × CircuitBreaker :=
  match cb.state with
  | CircuitState.CircuitClosed => (true, cb)
  | CircuitState.CircuitOpen =>
    if cb.nextAttempt < now then
      (true, { cb with state := CircuitState.CircuitHalfOpen, successCount := 0 })
    else
      (false, cb)
  | CircuitState.CircuitHalfOpen => (true, cb)

/-- `(*CircuitBreaker).RecordSuccess()`: always clears `failureCount`; in
`HalfOpen`, increments `successCount` and closes the circuit at 3. -/
def CircuitBreaker.RecordSuccess (cb : CircuitBreaker) : CircuitBreaker :=
  let cb := { cb with failureCount := 0 }
  if cb.state = CircuitState.CircuitHalfOpen then
    let cb := { cb with successCount := cb.successCount + 1 }
    if cb.successCount ≥ 3 then { cb with state := CircuitState.CircuitClosed } else cb
  else cb

/-- `(*CircuitBreaker).RecordFailure()`: increments `failureCount`; from
`HalfOpen` it reopens at once, otherwise it opens when the count reaches the
threshold.  `now` is `time.Now()`. -/
def CircuitBreaker.RecordFailure (cb : CircuitBreaker) (now : Nat) : CircuitBreaker :=
  let cb := { cb with failureCount := cb.failureCount + 1 }
  if cb.state = CircuitState.CircuitHalfOpen then
    { cb with state := CircuitState.CircuitOpen, nextAttempt := now + cb.timeout }
  else if cb.failureCount ≥ cb.threshold then
    { cb with state := CircuitState.CircuitOpen, nextAttempt := now + cb.timeout }
  else cb

/-! ## Retry executor — utils/retry.go -/

/-- Errors seen by `Retry` / `IsTemporaryError`: a `net.Error` whose
`Timeout()` is true, a structured `*APIError` with its status code and
message, or any other error (including non-timeout net errors, for which
both `errors.As` probes fail). -/
inductive GoError where
  | netTimeout : GoError
  | apiError (statusCode : Nat) (message : String) : GoError
  | other (msg : String) : GoError
deriving DecidableEq, Repr

/-- `IsTemporaryError`: network timeouts, HTTP 429 and HTTP 5xx are
temporary; everything else is permanent. -/
def IsTemporaryError : GoError → Bool
  | GoError.netTimeout => true
  | GoError.apiError status _ => decide (status = 429) || (decide (500 ≤ status) && decide (status < 600))
  | GoError.other _ => false

/-- Observable trace of one `Retry` execution: the returned value or error,
how many times `fn` was invoked, and the list of backoff durations passed to
`time.Sleep`, in order. -/
structure RetryTrace (α : Type) where
  result : Except GoError α
  invocations : Nat
  sleeps : List Nat
deriving Repr

/-- Body of the `for attempt := 1; attempt <= maxAttempts; attempt++` loop of
`Retry`.  `remaining` is `maxAttempts - attempt`, so `attempt < maxAttempts`
exactly when `remaining` is a successor.  `fn` maps the attempt number to the
outcome of that invocation (the `ctx` argument is only forwarded to `fn`; the
logger has no behaviour). -/
def retryLoop {α : Type} (fn : Nat → Except GoError α) :
    Nat → Nat → Nat → RetryTrace α
  | attempt, backoff, remaining =>
    match fn attempt with
    | Except.ok v => ⟨Except.ok v, 1, []⟩
    | Except.error e =>
      match remaining with
      | 0 => ⟨Except.error e, 1, []⟩
      | r + 1 =>
        if IsTemporaryError e then
          let t := retryLoop fn (attempt + 1) (backoff * 2) r
          ⟨t.result, t.invocations + 1, backoff :: t.sleeps⟩
        else ⟨Except.error e, 1, []⟩

/-- `Retry(ctx, logger, maxAttempts, initialBackoff, fn)`.  With
`maxAttempts = 0` the loop body never runs and the final
`fmt.Errorf("falha após %d tentativas", maxAttempts)` is returned; otherwise
the loop starts at attempt 1 with `backoff = initialBackoff` and always
returns from inside the loop. -/
def Retry {α : Type} (maxAttempts initialBackoff : Nat)
    (fn : Nat → Except GoError α) : RetryTrace α :=
  match maxAttempts with
  | 0 => ⟨Except.error (GoError.other "falha após 0 tentativas"), 0, []⟩
  | m + 1 => retryLoop fn 1 initialBackoff m

/-- An operation that fails with HTTP 503 on every invocation. -/
def failing503 : Nat → Except GoError String :=
  fun _ => Except.error (GoError.apiError 503 "Service Unavailable")

/-- An operation that fails with a permanent (non-API, non-timeout) error on
every invocation. -/
def failingPermanent : Nat → Except GoError String :=
  fun _ => Except.error (GoError.other "boom")

/-! ## Browser-side ConnectionManager — static/js/connection-manager.js -/

/-- The string states used by the JS manager: `'disconnected'`,
`'connecting'`, `'connected'`, `'reconnecting'`, `'failed'`, `'closed'`. -/
inductive ConnState where
  | disconnected : ConnState
  | connecting : ConnState
  | connected : ConnState
  | reconnecting : ConnState
  | failed : ConnState
  | closed : ConnState
deriving DecidableEq, Repr

/-- The configuration fields of the JS manager that the embedded operations
read (`this.config`). -/
structure CMConfig where
  maxReconnectAttempts : Nat
  initialBackoff : Nat
  maxBackoff : Nat
deriving DecidableEq, Repr

/-- The constructor defaults: `maxReconnectAttempts: 10`,
`initialBackoff: 1000`, `maxBackoff: 30000` (milliseconds). -/
def defaultCMConfig : CMConfig := ⟨10, 1000, 30000⟩

/-- A JS payload object as `send` inspects it.  `none` models an absent
property (which `JSON.stringify` omits); `some ""` is a present but empty
string, which is falsy in JS but does appear in the JSON text.  Properties
the manager never reads (`model`, `history`, ...) are not modelled. -/
structure JsPayload where
  type : Option String
  provider : Option String
  prompt : Option String
deriving DecidableEq, Repr

/-- JS truthiness of `data.provider`: present and not the empty string. -/
def providerTruthy (p : JsPayload) : Bool :=
  match p.provider with
  | some s => !(s == "")
  | none => false

/-- Whether `JSON.stringify(data).includes('"provider"')` holds: the
`provider` property is present (stringify writes the key even for `""`). -/
def jsonHasProviderKey (p : JsPayload) : Bool := p.provider.isSome

/-- Mutable fields of the `ConnectionManager` instance that the embedded
operations read or write. -/
structure ConnectionManager where
  config : CMConfig
  state : ConnState
  reconnectAttempts : Nat
  messageQueue : List JsPayload
  lastPong : Nat
deriving DecidableEq, Repr

/-- Outcome of one call to `ConnectionManager.send`: the boolean the JS
function returns, whether `this.ws.send` actually transmitted the frame, and
the manager afterwards. -/
structure SendResult where
  returned : Bool
  transmitted : Bool
  cm : ConnectionManager
deriving DecidableEq, Repr

/-- `ConnectionManager.send(data)`.  `wsSendOk` tells whether
`this.ws.send(jsonString)` returns normally (`false` models it throwing, the
only way into the `catch` block on the connected path). -/
def ConnectionManager.send (cm : ConnectionManager) (data : JsPayload)
    (wsSendOk : Bool) : SendResult :=
  if ¬ cm.state = ConnState.connected then
    -- not connected: queue when `data.provider` is truthy, else reject
    if providerTruthy data then
      ⟨false, false, { cm with messageQueue := cm.messageQueue ++ [data] }⟩
    else
      ⟨false, false, cm⟩
  else if jsonHasProviderKey data = false then
    -- final JSON validation: no '"provider"' in the serialised payload
    ⟨false, false, cm⟩
  else if wsSendOk then
    ⟨true, true, cm⟩
  else
    -- ws.send threw: the catch block re-queues only payloads with a provider
    if providerTruthy data then
      ⟨false, false, { cm with messageQueue := cm.messageQueue ++ [data] }⟩
    else
      ⟨false, false, cm⟩

/-- The object literal `{ type: 'ping' }` that `startPingPong` passes to
`this.send` on every ping interval. -/
def pingEnvelope : JsPayload := ⟨some "ping", none, none⟩

/-- `ConnectionManager.handleMessage(event)` after a successful
`JSON.parse`: a `pong` frame refreshes `this.lastPong = Date.now()` and
returns; anything else is emitted to the `message` handlers, leaving
`lastPong` alone. -/
def ConnectionManager.handleMessage (cm : ConnectionManager) (data : JsPayload)
    (now : Nat) : ConnectionManager :=
  if data.type = some "pong" then { cm with lastPong := now } else cm

/-- `ConnectionManager.handleReconnect()`.  The JS first does
`setState('reconnecting')`, then `this.reconnectAttempts++`, then computes
`Math.min(initialBackoff * 2 ** (reconnectAttempts - 1), maxBackoff)` with
the already incremented counter; the returned `Option Nat` is the delay of
the `setTimeout(connect, backoff)` it schedules, `none` when the attempt
limit is reached and state becomes `failed` with nothing scheduled. -/
def ConnectionManager.handleReconnect (cm : ConnectionManager) :
    ConnectionManager × Option Nat :=
  if cm.config.maxReconnectAttempts ≤ cm.reconnectAttempts then
    ({ cm with state := ConnState.failed }, none)
  else
    ({ cm with state := ConnState.reconnecting,
               reconnectAttempts := cm.reconnectAttempts + 1 },
     some (min (cm.config.initialBackoff * 2 ^ (cm.reconnectAttempts + 1 - 1))
               cm.config.maxBackoff))

/-- One failed automatic `connect()`: the socket closes with a code other
than 1000, so `handleClose` runs `setState('disconnected')` and then
`handleReconnect()`. -/
def ConnectionManager.failedConnectRound (cm : ConnectionManager) :
    ConnectionManager × Option Nat :=
  ConnectionManager.handleReconnect { cm with state := ConnState.disconnected }

/-- The manager after `n` consecutive failed connect rounds. -/
def reconnectRounds (cm : ConnectionManager) : Nat → ConnectionManager
  | 0 => cm
  | n + 1 => (ConnectionManager.failedConnectRound (reconnectRounds cm n)).1

/-- The `validMessages.forEach` loop of the JS `flushMessageQueue`: re-sends
each message with `this.send` (the i-th `ws.send` outcome given by `wsOk i`)
and pushes it back onto `this.messageQueue` when `send` returned false.
Returns the manager and the list of messages actually transmitted. -/
def ConnectionManager.flushLoop (wsOk : Nat → Bool) :
    List JsPayload → Nat → ConnectionManager → List JsPayload →
    ConnectionManager × List JsPayload
  | [], _, cm, sent => (cm, sent)
  | m :: rest, i, cm, sent =>
    let r := cm.send m (wsOk i)
    let cm' := if r.returned then r.cm
               else { r.cm with messageQueue := r.cm.messageQueue ++ [m] }
    ConnectionManager.flushLoop wsOk rest (i + 1) cm'
      (sent ++ (if r.transmitted then [m] else []))

/-- `ConnectionManager.flushMessageQueue()`: drops queued messages without a
truthy provider, clears `this.messageQueue`, then re-sends the valid ones in
order. -/
def ConnectionManager.flushMessageQueue (cm : ConnectionManager)
    (wsOk : Nat → Bool) : ConnectionManager × List JsPayload :=
  if cm.messageQueue.length = 0 then (cm, [])
  else
    let validMessages := cm.messageQueue.filter providerTruthy
    ConnectionManager.flushLoop wsOk validMessages 0
      { cm with messageQueue := [] } []

/-! ## Server-side WebSocket client queue — Client.flushMessageQueue
(package handlers, ping-ticker variant) -/

/-- The `for len(queue) > 0 && !closed` loop of the Go
`(*Client).flushMessageQueue`: pops the front message, tries a non-blocking
channel send (outcome of the i-th try given by `sendOk i`); on the `default`
branch it reinserts the message at the front and returns.  Returns the final
queue and the messages handed to the send channel, in order. -/
def Client.flushLoop (sendOk : Nat → Bool) (closed : Bool) :
    List String → Nat → List String × List String
  | [], _ => ([], [])
  | m :: rest, i =>
    if closed then (m :: rest, [])
    else if sendOk i then
      let (q, s) := Client.flushLoop sendOk closed rest (i + 1)
      (q, m :: s)
    else (m :: rest, [])

/-- `(*Client).flushMessageQueue` on a queue snapshot: the mutex is held for
the whole loop, so `closed` is the value `isClosed()` reads. -/
def Client.flushMessageQueue (queue : List String) (closed : Bool)
    (sendOk : Nat → Bool) : List String × List String :=
  Client.flushLoop sendOk closed queue 0

/-! ## Server-side managed connection — ManagedConnection (package utils) -/

/-- `ConnectionState` of the Go `ManagedConnection`. -/
inductive GoConnState where
  | StateConnecting : GoConnState
  | StateConnected : GoConnState
  | StateReconnecting : GoConnState
  | StateDisconnected : GoConnState
  | StateClosed : GoConnState
deriving DecidableEq, Repr

/-- The sentinel errors of the managed connection. -/
inductive SendError where
  | ErrNotConnected : SendError
  | ErrCircuitOpen : SendError
  | ErrSendTimeout : SendError
  | ErrConnectionClosed : SendError
deriving DecidableEq, Repr

/-- Which case of the `select` in `Send` fires: the buffered channel accepted
the payload, the 5-second timer fired first, or `ctx.Done()` was ready. -/
inductive SelectCase where
  | queued : SelectCase
  | timedOut : SelectCase
  | ctxDone : SelectCase
deriving DecidableEq, Repr

/-- A Go runtime panic that the embedding can surface. -/
inductive GoPanic where
  | closeOfClosedChannel : GoPanic
deriving DecidableEq, Repr

/-- The fields of `ManagedConnection` the embedded operations touch.
`sendQueue` is the content of the buffered `SendQueue` channel and
`sendQueueClosed` whether that channel has been closed. -/
structure ManagedConnection where
  state : GoConnState
  circuitBreaker : CircuitBreaker
  sendQueue : List String
  sendQueueClosed : Bool
  ctxCancelled : Bool
deriving DecidableEq, Repr

/-- `NewManagedConnection`: state `StateDisconnected`, a fresh
`NewCircuitBreaker(5, time.Minute)` (one minute = 60000 ms), an open empty
send channel and a live context. -/
def NewManagedConnection : ManagedConnection :=
  { state := GoConnState.StateDisconnected
    circuitBreaker := NewCircuitBreaker 5 60000
    sendQueue := []
    sendQueueClosed := false
    ctxCancelled := false }

/-- `(*ManagedConnection).Send(data)`: not connected means an immediate
`ErrNotConnected`; then the circuit breaker gate; then the three-way
`select`, whose winning case is the scheduler-dependent `sel`. -/
def ManagedConnection.Send (mc : ManagedConnection) (data : String)
    (now : Nat) (sel : SelectCase) : Except SendError Unit × ManagedConnection :=
  if ¬ mc.state = GoConnState.StateConnected then
    (Except.error SendError.ErrNotConnected, mc)
  else
    let allowed := (mc.circuitBreaker.Allow now).1
    let mc := { mc with circuitBreaker := (mc.circuitBreaker.Allow now).2 }
    if allowed = false then
      (Except.error SendError.ErrCircuitOpen, mc)
    else
      match sel with
      | SelectCase.queued => (Except.ok (), { mc with sendQueue := mc.sendQueue ++ [data] })
      | SelectCase.timedOut => (Except.error SendError.ErrSendTimeout, mc)
      | SelectCase.ctxDone => (Except.error SendError.ErrConnectionClosed, mc)

/-- `(*ManagedConnection).Close()`: `setState(StateClosed)`, `cancel()`, then
an unguarded `close(mc.SendQueue)` — which is a runtime panic ("close of
closed channel") whenever the channel was already closed — and finally
`mc.Conn.Close()` (a no-op here since no live socket is modelled). -/
def ManagedConnection.Close (mc : ManagedConnection) :
    Except GoPanic ManagedConnection :=
  let mc := { mc with state := GoConnState.StateClosed }
  let mc := { mc with ctxCancelled := true }
  if mc.sendQueueClosed then Except.error GoPanic.closeOfClosedChannel
  else Except.ok { mc with sendQueueClosed := true }

/-- The managed connection after one successful `Close()` on a fresh one. -/
def closedOnceMC : ManagedConnection :=
  { NewManagedConnection with
      state := GoConnState.StateClosed
      ctxCancelled := true
      sendQueueClosed := true }

/-! ## WebSocket protocol handler — Client.handleMessage (package handlers,
variant with the `type` field, the one the spec's protocol section and the
client speak) -/

/-- `FilePayload` as validation sees it (only the count of files matters to
`handleMessage`; content fields are carried for `processMessage`). -/
structure FilePayload where
  name : String
  content : String
  isBase64 : Bool
deriving DecidableEq, Repr

/-- The inbound `RequestPayload` envelope. -/
structure RequestPayload where
  type : String
  provider : String
  model : String
  prompt : String
  files : List FilePayload
deriving DecidableEq, Repr

/-- The outbound `ResponsePayload` fields that ping/validation replies use
(`IsMarkdown` and `Provider` keep their zero values there). -/
structure ResponsePayload where
  type : String
  status : String
  response : String
deriving DecidableEq, Repr

/-- What `handleMessage` can do with a frame: push a JSON reply into the send
channel, or hand the request to `go c.processMessage(req)` — the only path
on which `llmManager.GetClient` and `client.SendPrompt` are ever reached. -/
inductive HandlerAction where
  | sendJSON (resp : ResponsePayload) : HandlerAction
  | processMessage (req : RequestPayload) : HandlerAction
deriving DecidableEq, Repr

/-- `MaxFilesPerRequest = 50`. -/
def MaxFilesPerRequest : Nat := 50

/-- `(*Client).sendError(message)`: a `ResponsePayload` with
`Type:"message"`, `Status:"error"` and the message as `Response`. -/
def sendError (message : String) : HandlerAction :=
  HandlerAction.sendJSON ⟨"message", "error", message⟩

/-- The provider-required validation message of `handleMessage`. -/
def providerRequiredMsg : String :=
  "Provedor LLM não especificado. Selecione um provedor e tente novamente."

/-- The empty-message validation message of `handleMessage`. -/
def emptyMessageMsg : String :=
  "Mensagem vazia. Digite algo ou anexe arquivos."

/-- `(*Client).handleMessage(payload)` as the ordered list of actions it
performs.  `none` models a payload `json.Unmarshal` rejects.  Order in the
source: ping check, provider check, empty-message check, file-count check,
then `go c.processMessage(req)`. -/
def handleMessage (payload : Option RequestPayload) : List HandlerAction :=
  match payload with
  | none => [sendError "Payload inválido"]
  | some req =>
    if req.type = "ping" then
      [HandlerAction.sendJSON ⟨"pong", "ok", ""⟩]
    else if req.provider = "" then
      [sendError providerRequiredMsg]
    else if req.prompt = "" ∧ req.files.length = 0 then
      [sendError emptyMessageMsg]
    else if req.files.length > MaxFilesPerRequest then
      [sendError ("Número máximo de arquivos excedido. Limite: " ++ toString MaxFilesPerRequest)]
    else
      [HandlerAction.processMessage req]

/-! ## Concrete inputs used by witnesses and counterexamples -/

/-- A circuit breaker sitting in `Open` with `nextAttempt = 100`. -/
def cbOpenW : CircuitBreaker :=
  ⟨CircuitState.CircuitOpen, 5, 0, 5, 60, 100⟩

/-- A circuit breaker freshly moved to `HalfOpen` (success counter 0). -/
def cbHalfW : CircuitBreaker :=
  ⟨CircuitState.CircuitHalfOpen, 0, 0, 5, 60, 100⟩

/-- Message A of the queue scenario. -/
def payloadA : JsPayload := ⟨some "message", some "OPENAI", some "a"⟩

/-- Message B of the queue scenario. -/
def payloadB : JsPayload := ⟨some "message", some "OPENAI", some "b"⟩

/-- Message C of the queue scenario. -/
def payloadC : JsPayload := ⟨some "message", some "OPENAI", some "c"⟩

/-- A connected manager holding the queue [A, B, C] built while offline. -/
def cmFlushCex : ConnectionManager :=
  ⟨defaultCMConfig, ConnState.connected, 0, [payloadA, payloadB, payloadC], 0⟩

/-- A `ws.send` oracle under which the first re-send (message A) throws and
every later one succeeds. -/
def wsOkCex : Nat → Bool := fun i => !(i == 0)

/-- A disconnected manager with an empty queue (witness input). -/
def cmDiscW : ConnectionManager :=
  ⟨defaultCMConfig, ConnState.disconnected, 0, [], 0⟩

/-- A connected manager with an empty queue (witness input). -/
def cmConnW : ConnectionManager :=
  ⟨defaultCMConfig, ConnState.connected, 0, [], 7⟩

/-- A ping request envelope (no provider, no prompt, no files). -/
def pingReq : RequestPayload := ⟨"ping", "", "", "", []⟩

/-- A message envelope with an empty provider. -/
def emptyProviderReq : RequestPayload := ⟨"message", "", "gpt-4o", "olá", []⟩

/-- A message envelope with a provider but neither prompt nor files. -/
def emptyPromptReq : RequestPayload := ⟨"message", "OPENAI", "gpt-4o", "", []⟩

/-! ## Theorems -/

/-- C1: the CircuitBreaker state machine behaves as specified: with
threshold 5, five consecutive `RecordFailure` calls from a fresh breaker
transition it to `Open`; while `Open`, `Allow` before the timeout has
elapsed returns false and changes nothing; the first `Allow` strictly after
`nextAttempt` returns true and moves to `HalfOpen` with the success counter
reset to 0; from `HalfOpen` with a zero success counter, three consecutive
`RecordSuccess` calls reach `Closed`; and a single `RecordFailure` from
`HalfOpen` returns to `Open` with `nextAttempt = now + timeout`. -/
theorem circuitBreaker_state_machine :
    (∀ timeout t1 t2 t3 t4 t5 : Nat,
      ((((((NewCircuitBreaker 5 timeout).RecordFailure t1).RecordFailure t2).RecordFailure
          t3).RecordFailure t4).RecordFailure t5).state = CircuitState.CircuitOpen) ∧
    (∀ (cb : CircuitBreaker) (now : Nat), cb.state = CircuitState.CircuitOpen →
      ¬ cb.nextAttempt < now → cb.Allow now = (false, cb)) ∧
    (∀ (cb : CircuitBreaker) (now : Nat), cb.state = CircuitState.CircuitOpen →
      cb.nextAttempt < now →
      cb.Allow now = (true, { cb with state := CircuitState.CircuitHalfOpen, successCount := 0 })) ∧
    (∀ cb : CircuitBreaker, cb.state = CircuitState.CircuitHalfOpen → cb.successCount = 0 →
      cb.RecordSuccess.RecordSuccess.RecordSuccess.state = CircuitState.CircuitClosed) ∧
    (∀ (cb : CircuitBreaker) (now : Nat), cb.state = CircuitState.CircuitHalfOpen →
      (cb.RecordFailure now).state = CircuitState.CircuitOpen ∧
      (cb.RecordFailure now).nextAttempt = now + cb.timeout) := by
  refine ⟨?_, ?_, ?_, ?_, ?_⟩
  · intro timeout t1 t2 t3 t4 t5
    rfl
  · rintro ⟨st, fc, sc, th, tmo, na⟩ now h hn
    subst h
    simp [CircuitBreaker.Allow, hn]
  · rintro ⟨st, fc, sc, th, tmo, na⟩ now h hn
    subst h
    simp [CircuitBreaker.Allow, hn]
  · rintro ⟨st, fc, sc, th, tmo, na⟩ h hsc
    subst h
    subst hsc
    rfl
  · rintro ⟨st, fc, sc, th, tmo, na⟩ now h
    subst h
    exact ⟨rfl, rfl⟩

/-- Witness for C1 at concrete inputs. -/
theorem circuitBreaker_state_machine_witness :
    ((((((NewCircuitBreaker 5 60).RecordFailure 0).RecordFailure 1).RecordFailure
        2).RecordFailure 3).RecordFailure 4).state = CircuitState.CircuitOpen ∧
    cbOpenW.Allow 100 = (false, cbOpenW) ∧
    cbOpenW.Allow 101 =
      (true, { cbOpenW with state := CircuitState.CircuitHalfOpen, successCount := 0 }) ∧
    cbHalfW.RecordSuccess.RecordSuccess.RecordSuccess.state = CircuitState.CircuitClosed ∧
    (cbHalfW.RecordFailure 7).state = CircuitState.CircuitOpen ∧
    (cbHalfW.RecordFailure 7).nextAttempt = 7 + cbHalfW.timeout := by
  obtain ⟨h1, h2, h3, h4, h5⟩ := circuitBreaker_state_machine
  exact ⟨h1 60 0 1 2 3 4, h2 cbOpenW 100 (by decide) (by decide),
    h3 cbOpenW 101 (by decide) (by decide), h4 cbHalfW (by decide) (by decide),
    (h5 cbHalfW 7 (by decide)).1, (h5 cbHalfW 7 (by decide)).2⟩

/-- Helper: with the connection open, whatever the channel-send outcomes, the
messages the Go flush loop hands to the channel followed by the final queue
are exactly the original queue, in order. -/
theorem Client.flushLoop_partition (sendOk : Nat → Bool) :
    ∀ (queue : List String) (i : Nat),
      (Client.flushLoop sendOk false queue i).2 ++ (Client.flushLoop sendOk false queue i).1 =
        queue := by
  intro queue
  induction queue with
  | nil => intro i; rfl
  | cons m rest ih =>
    intro i
    cases h : sendOk i with
    | true => simp [Client.flushLoop, h, ih (i + 1)]
    | false => simp [Client.flushLoop, h]

/-- C2 (amended): the strict-FIFO-with-front-reinsertion property holds for
the server-side Go `Client.flushMessageQueue`: the transmitted messages are
always a prefix of the queue in order, and when the resend of the front
message A fails the flush stops at once, nothing is transmitted, and the
queue still is [A, B, C] with A at the front. -/
theorem flushMessageQueue_go_fifo :
    (∀ (queue : List String) (sendOk : Nat → Bool),
      (Client.flushMessageQueue queue false sendOk).2 ++
        (Client.flushMessageQueue queue false sendOk).1 = queue) ∧
    (∀ (A B C : String) (sendOk : Nat → Bool), sendOk 0 = false →
      Client.flushMessageQueue [A, B, C] false sendOk = ([A, B, C], [])) := by
  constructor
  · intro queue sendOk
    exact Client.flushLoop_partition sendOk queue 0
  · intro A B C sendOk h
    simp [Client.flushMessageQueue, Client.flushLoop, h]

/-- Witness for C2's theorem at a concrete queue and send oracles. -/
theorem flushMessageQueue_go_fifo_witness :
    Client.flushMessageQueue ["A", "B", "C"] false (fun _ => false) = (["A", "B", "C"], []) ∧
    (Client.flushMessageQueue ["A", "B", "C"] false (fun i => decide (i = 0))).2 ++
      (Client.flushMessageQueue ["A", "B", "C"] false (fun i => decide (i = 0))).1 =
      ["A", "B", "C"] := by
  exact ⟨flushMessageQueue_go_fifo.2 "A" "B" "C" (fun _ => false) rfl,
    flushMessageQueue_go_fifo.1 ["A", "B", "C"] (fun i => decide (i = 0))⟩

/-- C2 counterexample on the browser side: with queue [A, B, C] and the
resend of A failing (ws.send throws) while B and C succeed, the JS
`flushMessageQueue` does not stop: B and C are transmitted anyway, and the
queue afterwards is [A, A] (A re-queued once by send's catch block and once
by the flush loop), not [A, B, C]. -/
theorem flushMessageQueue_js_counterexample :
    (cmFlushCex.flushMessageQueue wsOkCex).2 = [payloadB, payloadC] ∧
    (cmFlushCex.flushMessageQueue wsOkCex).1.messageQueue = [payloadA, payloadA] ∧
    ¬ ((cmFlushCex.flushMessageQueue wsOkCex).1.messageQueue =
         [payloadA, payloadB, payloadC] ∧
       (cmFlushCex.flushMessageQueue wsOkCex).2 = []) := by
  decide

/-- Helper: unfolding the retry loop on its last attempt. -/
theorem retryLoop_zero {α : Type} (fn : Nat → Except GoError α) (a b : Nat) :
    retryLoop fn a b 0 =
      match fn a with
      | Except.ok v => ⟨Except.ok v, 1, []⟩
      | Except.error e => ⟨Except.error e, 1, []⟩ := by
  rw [retryLoop]

/-- Helper: unfolding the retry loop on a non-final attempt. -/
theorem retryLoop_succ {α : Type} (fn : Nat → Except GoError α) (a b r : Nat) :
    retryLoop fn a b (r + 1) =
      match fn a with
      | Except.ok v => ⟨Except.ok v, 1, []⟩
      | Except.error e =>
        if IsTemporaryError e then
          let t := retryLoop fn (a + 1) (b * 2) r
          ⟨t.result, t.invocations + 1, b :: t.sleeps⟩
        else ⟨Except.error e, 1, []⟩ := by
  rw [retryLoop]

/-- Helper: every run of the retry loop invokes the operation at least
once. -/
theorem retryLoop_invocations_pos {α : Type} (fn : Nat → Except GoError α)
    (a b r : Nat) : 1 ≤ (retryLoop fn a b r).invocations := by
  cases r with
  | zero =>
    rw [retryLoop_zero]
    cases fn a <;> simp
  | succ r' =>
    rw [retryLoop_succ]
    cases fn a with
    | ok v => simp
    | error e =>
      cases ht : IsTemporaryError e <;> simp [ht]

/-- Helper: when every invocation fails with a temporary error, the loop
starting at backoff `b` sleeps exactly `b, 2b, 4b, ...`, one sleep per
remaining attempt, with no cap. -/
theorem retryLoop_sleeps_allTemp {α : Type} (fn : Nat → Except GoError α)
    (h : ∀ i, ∃ e, fn i = Except.error e ∧ IsTemporaryError e = true) :
    ∀ (r a b : Nat),
      (retryLoop fn a b r).sleeps = (List.range r).map (fun j => b * 2 ^ j) := by
  intro r
  induction r with
  | zero =>
    intro a b
    obtain ⟨e, he, -⟩ := h a
    rw [retryLoop_zero, he]
    simp
  | succ r ih =>
    intro a b
    obtain ⟨e, he, ht⟩ := h a
    rw [retryLoop_succ, he]
    simp [ht, ih (a + 1) (b * 2), List.range_succ_eq_map,
      List.map_map, Function.comp]
    all_goals
      intro j hj
      ring

/-- C3 (amended): `Retry` doubles the backoff without any cap — there is no
`maxBackoff` parameter in utils/retry.go — so when every attempt fails with
a temporary error the delay slept before attempt n+1 equals
`initialBackoff * 2^(n-1)`, for every n with 1 ≤ n < maxAttempts. -/
theorem retry_backoff_uncapped {α : Type} (fn : Nat → Except GoError α)
    (maxAttempts b : Nat)
    (h : ∀ i, ∃ e, fn i = Except.error e ∧ IsTemporaryError e = true) :
    (Retry maxAttempts b fn).sleeps =
      (List.range (maxAttempts - 1)).map (fun j => b * 2 ^ j) ∧
    ∀ n, 1 ≤ n → n < maxAttempts →
      (Retry maxAttempts b fn).sleeps.get? (n - 1) = some (b * 2 ^ (n - 1)) := by
  have hs : (Retry maxAttempts b fn).sleeps =
      (List.range (maxAttempts - 1)).map (fun j => b * 2 ^ j) := by
    cases maxAttempts with
    | zero => simp [Retry]
    | succ m => simpa [Retry] using retryLoop_sleeps_allTemp fn h m 1 b
  refine ⟨hs, ?_⟩
  intro n h1 h2
  have hlt : n - 1 < maxAttempts - 1 := by omega
  rw [hs, List.get?_map, List.get?_range hlt]
  rfl

/-- Witness for C3's amended theorem: maxAttempts 4, initialBackoff 1, all
attempts failing with HTTP 503. -/
theorem retry_backoff_uncapped_witness :
    (Retry 4 1 failing503).sleeps = (List.range (4 - 1)).map (fun j => 1 * 2 ^ j) ∧
    (Retry 4 1 failing503).sleeps.get? 1 = some (1 * 2 ^ (2 - 1)) := by
  have h := retry_backoff_uncapped failing503 4 1
    (fun _ => ⟨GoError.apiError 503 "Service Unavailable", rfl, rfl⟩)
  exact ⟨h.1, h.2 2 (by decide) (by decide)⟩

/-- C3 counterexample: with initialBackoff 1 and every attempt failing with
HTTP 503, the six delays of a 7-attempt run are 1, 2, 4, 8, 16, 32 — the
sixth is 32, not the `min(1 * 2^5, 30) = 30` the claim's capped formula
gives for maxBackoff 30. -/
theorem retry_maxBackoff_counterexample :
    (Retry 7 1 failing503).sleeps = [1, 2, 4, 8, 16, 32] ∧
    ¬ (Retry 7 1 failing503).sleeps.get? 5 = some (min (1 * 2 ^ (6 - 1)) 30) := by
  decide

/-- C4: `Retry` classifies failures as specified: a permanent error (neither
a network timeout nor an API error with status 429/5xx) on the first
attempt is returned immediately — exactly one invocation, no sleeps; a
temporary error on a non-final attempt triggers a backoff sleep (the first
sleep equals `initialBackoff`) and at least one further invocation; and
with an operation failing with HTTP 503 on every call and maxAttempts 3,
the final error surfaces after exactly 3 invocations and exactly 2
intervening sleeps. -/
theorem retry_error_classification :
    (∀ (fn : Nat → Except GoError String) (m b : Nat) (e : GoError),
      IsTemporaryError e = false → fn 1 = Except.error e →
      Retry (m + 1) b fn = ⟨Except.error e, 1, []⟩) ∧
    (∀ (fn : Nat → Except GoError String) (m b : Nat) (e : GoError),
      IsTemporaryError e = true → fn 1 = Except.error e →
      (Retry (m + 2) b fn).sleeps.head? = some b ∧
        2 ≤ (Retry (m + 2) b fn).invocations) ∧
    Retry 3 1 failing503 =
      ⟨Except.error (GoError.apiError 503 "Service Unavailable"), 3, [1, 2]⟩ := by
  refine ⟨?_, ?_, rfl⟩
  · intro fn m b e ht hf
    cases m with
    | zero =>
      show retryLoop fn 1 b 0 = _
      rw [retryLoop_zero, hf]
    | succ m' =>
      show retryLoop fn 1 b (m' + 1) = _
      rw [retryLoop_succ, hf]
      simp [ht]
  · intro fn m b e ht hf
    have hpos := retryLoop_invocations_pos fn 2 (b * 2) m
    have hR : Retry (m + 2) b fn = retryLoop fn 1 b (m + 1) := rfl
    constructor
    · rw [hR, retryLoop_succ, hf]
      simp [ht]
    · rw [hR, retryLoop_succ, hf]
      simp [ht]
      omega

/-- Witness for C4 at concrete operations. -/
theorem retry_error_classification_witness :
    Retry 1 1 failingPermanent = ⟨Except.error (GoError.other "boom"), 1, []⟩ ∧
    (Retry 2 1 failing503).sleeps.head? = some 1 ∧
    2 ≤ (Retry 2 1 failing503).invocations := by
  obtain ⟨h1, h2, -⟩ := retry_error_classification
  refine ⟨h1 failingPermanent 0 1 (GoError.other "boom") rfl rfl, ?_, ?_⟩
  · exact (h2 failing503 0 1 (GoError.apiError 503 "Service Unavailable") rfl rfl).1
  · exact (h2 failing503 0 1 (GoError.apiError 503 "Service Unavailable") rfl rfl).2

/-- Helper: unfolding one reconnect round. -/
theorem reconnectRounds_succ (cm : ConnectionManager) (n : Nat) :
    reconnectRounds cm (n + 1) =
      (ConnectionManager.failedConnectRound (reconnectRounds cm n)).1 := rfl

/-- Helper: once the third round has spent the attempt budget (max 3), every
later round leaves the manager in `failed` with attempts pinned at 3. -/
theorem reconnectRounds_exhausted (i m lp : Nat) (q : List JsPayload)
    (st : ConnState) :
    ∀ k, reconnectRounds ⟨⟨3, i, m⟩, st, 0, q, lp⟩ (4 + k) =
      ⟨⟨3, i, m⟩, ConnState.failed, 3, q, lp⟩ := by
  intro k
  induction k with
  | zero => rfl
  | succ k ih =>
    have hk : 4 + (k + 1) = (4 + k) + 1 := rfl
    rw [hk, reconnectRounds_succ, ih]
    rfl

/-- C5: reconnect exhaustion is terminal.  Before exhaustion each round sets
state `reconnecting`, increments the attempt counter and schedules a
`connect()` after `min(initialBackoff * 2^(reconnectAttempts-1), maxBackoff)`
(computed with the incremented counter); once
`reconnectAttempts >= maxReconnectAttempts` the state becomes `failed` and
nothing is scheduled.  With `maxReconnectAttempts = 3`, an unexpected close
followed by three failed `connect()` attempts reaches `failed`, and every
later round schedules nothing. -/
theorem handleReconnect_exhaustion :
    (∀ cm : ConnectionManager,
      cm.reconnectAttempts < cm.config.maxReconnectAttempts →
      cm.handleReconnect =
        ({ cm with state := ConnState.reconnecting,
                   reconnectAttempts := cm.reconnectAttempts + 1 },
         some (min (cm.config.initialBackoff * 2 ^ cm.reconnectAttempts)
                   cm.config.maxBackoff))) ∧
    (∀ cm : ConnectionManager,
      cm.config.maxReconnectAttempts ≤ cm.reconnectAttempts →
      cm.handleReconnect = ({ cm with state := ConnState.failed }, none)) ∧
    (∀ (i m lp : Nat) (q : List JsPayload) (st : ConnState),
      (ConnectionManager.failedConnectRound
        (reconnectRounds ⟨⟨3, i, m⟩, st, 0, q, lp⟩ 0)).2 = some (min (i * 2 ^ 0) m) ∧
      (ConnectionManager.failedConnectRound
        (reconnectRounds ⟨⟨3, i, m⟩, st, 0, q, lp⟩ 1)).2 = some (min (i * 2 ^ 1) m) ∧
      (ConnectionManager.failedConnectRound
        (reconnectRounds ⟨⟨3, i, m⟩, st, 0, q, lp⟩ 2)).2 = some (min (i * 2 ^ 2) m) ∧
      (reconnectRounds ⟨⟨3, i, m⟩, st, 0, q, lp⟩ 3).reconnectAttempts = 3 ∧
      ∀ k, (reconnectRounds ⟨⟨3, i, m⟩, st, 0, q, lp⟩ (4 + k)).state = ConnState.failed ∧
        (ConnectionManager.failedConnectRound
          (reconnectRounds ⟨⟨3, i, m⟩, st, 0, q, lp⟩ (3 + k))).2 = none) := by
  refine ⟨?_, ?_, ?_⟩
  · intro cm h
    simp [ConnectionManager.handleReconnect, Nat.not_le.mpr h]
  · intro cm h
    simp [ConnectionManager.handleReconnect, h]
  · intro i m lp q st
    refine ⟨rfl, rfl, rfl, rfl, ?_⟩
    intro k
    constructor
    · rw [reconnectRounds_exhausted i m lp q st k]
    · cases k with
      | zero => rfl
      | succ k' =>
        have hk : 3 + (k' + 1) = 4 + k' := by omega
        rw [hk, reconnectRounds_exhausted i m lp q st k']
        rfl

/-- Witness for C5 at a concrete configuration (max 3 attempts, 1000 ms
initial backoff, 30000 ms cap). -/
theorem handleReconnect_exhaustion_witness :
    ConnectionManager.handleReconnect ⟨⟨3, 1000, 30000⟩, ConnState.disconnected, 0, [], 0⟩ =
      (⟨⟨3, 1000, 30000⟩, ConnState.reconnecting, 1, [], 0⟩, some (min (1000 * 2 ^ 0) 30000)) ∧
    ConnectionManager.handleReconnect ⟨⟨3, 1000, 30000⟩, ConnState.disconnected, 3, [], 0⟩ =
      (⟨⟨3, 1000, 30000⟩, ConnState.failed, 3, [], 0⟩, none) ∧
    (reconnectRounds ⟨⟨3, 1000, 30000⟩, ConnState.disconnected, 0, [], 0⟩ 4).state =
      ConnState.failed := by
  obtain ⟨h1, h2, h3⟩ := handleReconnect_exhaustion
  refine ⟨?_, ?_, ?_⟩
  · have h := h1 ⟨⟨3, 1000, 30000⟩, ConnState.disconnected, 0, [], 0⟩ (by decide)
    simpa using h
  · exact h2 ⟨⟨3, 1000, 30000⟩, ConnState.disconnected, 3, [], 0⟩ (by decide)
  · exact ((h3 1000 30000 0 [] ConnState.disconnected).2.2.2.2 0).1

/-- C6 (amended): for the browser-side `ConnectionManager.send` in a
non-connected state, a payload with a truthy provider is appended to the
retry queue and the call returns false without transmitting (the queued
outcome, not a thrown error); a payload without a truthy provider is
rejected outright — same false return, queue untouched. -/
theorem send_disconnected_queueing :
    ∀ (cm : ConnectionManager) (data : JsPayload) (wsOk : Bool),
      ¬ cm.state = ConnState.connected →
      (providerTruthy data = true →
        cm.send data wsOk =
          ⟨false, false, { cm with messageQueue := cm.messageQueue ++ [data] }⟩) ∧
      (providerTruthy data = false →
        cm.send data wsOk = ⟨false, false, cm⟩) := by
  intro cm data wsOk h
  constructor
  · intro hp
    simp [ConnectionManager.send, h, hp]
  · intro hp
    simp [ConnectionManager.send, h, hp]

/-- Witness for C6's amended theorem on a disconnected manager. -/
theorem send_disconnected_queueing_witness :
    cmDiscW.send payloadA true =
      ⟨false, false, { cmDiscW with messageQueue := cmDiscW.messageQueue ++ [payloadA] }⟩ ∧
    cmDiscW.send pingEnvelope true = ⟨false, false, cmDiscW⟩ := by
  have h1 := send_disconnected_queueing cmDiscW payloadA true (by decide)
  have h2 := send_disconnected_queueing cmDiscW pingEnvelope true (by decide)
  exact ⟨h1.1 (by decide), h2.2 (by decide)⟩

/-- C6 counterexample on the Go side: `ManagedConnection.Send` on a fresh
(disconnected) connection returns the error `ErrNotConnected` and appends
nothing to any queue — even for a payload that does carry a provider — in
contradiction with "appended to the retry queue and the call reports a
queued, not sent outcome (not an error)". -/
theorem send_notConnected_go_counterexample :
    ManagedConnection.Send NewManagedConnection "provider OPENAI prompt oi" 0
        SelectCase.queued =
      (Except.error SendError.ErrNotConnected, NewManagedConnection) := rfl

/-- C7 (code bug): the first `Close()` on a fresh `ManagedConnection`
succeeds, but the second runs `close(mc.SendQueue)` on an already closed
channel, a Go runtime panic — `Close()` is not idempotent. -/
theorem managedConnection_close_double_panics :
    NewManagedConnection.Close = Except.ok closedOnceMC ∧
    closedOnceMC.Close = Except.error GoPanic.closeOfClosedChannel := ⟨rfl, rfl⟩

/-- C8: a message envelope with an empty provider is answered immediately
with the provider-required error reply and `processMessage` — the only path
to `GetClient`/`SendPrompt` — is never reached; an envelope with a provider
but empty prompt and no files is likewise rejected with the empty-message
error before any processing. -/
theorem handleMessage_validation_rejects :
    ∀ req : RequestPayload, req.type = "message" →
      (req.provider = "" →
        handleMessage (some req) = [sendError providerRequiredMsg] ∧
        ∀ r, HandlerAction.processMessage r ∉ handleMessage (some req)) ∧
      (¬ req.provider = "" → req.prompt = "" → req.files = [] →
        handleMessage (some req) = [sendError emptyMessageMsg] ∧
        ∀ r, HandlerAction.processMessage r ∉ handleMessage (some req)) := by
  intro req htype
  constructor
  · intro hp
    have he : handleMessage (some req) = [sendError providerRequiredMsg] := by
      simp [handleMessage, htype, hp]
    refine ⟨he, ?_⟩
    intro r
    simp [he, sendError]
  · intro hp hprompt hfiles
    have he : handleMessage (some req) = [sendError emptyMessageMsg] := by
      simp [handleMessage, htype, hp, hprompt, hfiles]
    refine ⟨he, ?_⟩
    intro r
    simp [he, sendError]

/-- Witness for C8 on concrete envelopes. -/
theorem handleMessage_validation_rejects_witness :
    handleMessage (some emptyProviderReq) = [sendError providerRequiredMsg] ∧
    HandlerAction.processMessage emptyProviderReq ∉ handleMessage (some emptyProviderReq) ∧
    handleMessage (some emptyPromptReq) = [sendError emptyMessageMsg] := by
  have h1 := handleMessage_validation_rejects emptyProviderReq rfl
  have h2 := handleMessage_validation_rejects emptyPromptReq rfl
  exact ⟨(h1.1 rfl).1, (h1.1 rfl).2 emptyProviderReq, (h2.2 (by decide) rfl rfl).1⟩

/-- C9: a `ping` envelope is answered with exactly the pong reply
`ResponsePayload{Type:"pong", Status:"ok"}` and nothing else — no
validation, no file processing and no `processMessage`, whatever the rest
of the envelope contains. -/
theorem handleMessage_ping_pong :
    ∀ req : RequestPayload, req.type = "ping" →
      handleMessage (some req) = [HandlerAction.sendJSON ⟨"pong", "ok", ""⟩] := by
  intro req h
  simp [handleMessage, h]

/-- Witness for C9 on the concrete ping envelope. -/
theorem handleMessage_ping_pong_witness :
    handleMessage (some pingReq) = [HandlerAction.sendJSON ⟨"pong", "ok", ""⟩] :=
  handleMessage_ping_pong pingReq rfl

/-- C10 (implicit): even when connected, `ConnectionManager.send` transmits
nothing and returns false whenever the payload's JSON has no "provider"
key; in particular the `startPingPong` envelope `{type: 'ping'}` is never
transmitted in any state (and never queued), and the client's `lastPong` is
refreshed exactly by incoming `pong` envelopes and by nothing else. -/
theorem send_requires_provider_key :
    (∀ (cm : ConnectionManager) (data : JsPayload) (wsOk : Bool),
      cm.state = ConnState.connected → data.provider = none →
      cm.send data wsOk = ⟨false, false, cm⟩) ∧
    (∀ (cm : ConnectionManager) (wsOk : Bool),
      (cm.send pingEnvelope wsOk).transmitted = false ∧
      (cm.send pingEnvelope wsOk).cm.messageQueue = cm.messageQueue) ∧
    (∀ (cm : ConnectionManager) (data : JsPayload) (now : Nat),
      ¬ data.type = some "pong" → (cm.handleMessage data now).lastPong = cm.lastPong) ∧
    (∀ (cm : ConnectionManager) (data : JsPayload) (now : Nat),
      data.type = some "pong" → (cm.handleMessage data now).lastPong = now) := by
  refine ⟨?_, ?_, ?_, ?_⟩
  · intro cm data wsOk hs hp
    simp [ConnectionManager.send, hs, jsonHasProviderKey, hp]
  · intro cm wsOk
    by_cases hs : cm.state = ConnState.connected
    · constructor <;>
        simp [ConnectionManager.send, hs, jsonHasProviderKey, pingEnvelope, providerTruthy]
    · constructor <;>
        simp [ConnectionManager.send, hs, providerTruthy, pingEnvelope]
  · intro cm data now h
    simp [ConnectionManager.handleMessage, h]
  · intro cm data now h
    simp [ConnectionManager.handleMessage, h]

/-- Witness for C10 on a connected manager. -/
theorem send_requires_provider_key_witness :
    cmConnW.send ⟨some "message", none, some "oi"⟩ true = ⟨false, false, cmConnW⟩ ∧
    (cmConnW.send pingEnvelope true).transmitted = false ∧
    (cmConnW.handleMessage ⟨some "message", some "OPENAI", some "oi"⟩ 99).lastPong =
      cmConnW.lastPong ∧
    (cmConnW.handleMessage ⟨some "pong", none, none⟩ 99).lastPong = 99 := by
  obtain ⟨h1, h2, h3, h4⟩ := send_requires_provider_key
  exact ⟨h1 cmConnW ⟨some "message", none, some "oi"⟩ true rfl rfl,
    (h2 cmConnW true).1,
    h3 cmConnW ⟨some "message", some "OPENAI", some "oi"⟩ 99 (by decide),
    h4 cmConnW ⟨some "pong", none, none⟩ 99 rfl⟩
